import Mathlib

/-!
Shallow embedding of `src/project.py` (an LLM code-deployment webhook).

The single endpoint `handle_request` parses a JSON body, checks a shared
secret, extracts fields (HTML-escaping `email` and `task`), derives a
project identity, creates a working directory, calls an LLM generator,
writes three files, runs nine `git`/`gh` subprocess steps, and finally
posts the success payload to an optional evaluation callback with a
backoff loop.

External effects (directory creation, LLM call, file writes, subprocess
invocations, outbound posts, sleeps) are recorded in an explicit trace.
External nondeterminism is passed in as oracles: the generator outcome,
the first failing subprocess step (if any) together with the commit sha,
and the per-attempt outcome of the callback posts.
-/

namespace Project

/-- A JSON scalar as the handler sees it after parsing; models the Python
values relevant to this endpoint (strings, ints, booleans, null). -/
inductive PyVal where
  | str (s : String)
  | int (n : Int)
  | boolean (b : Bool)
  | none_
deriving Repr, DecidableEq

/-- Is this character whitespace in the sense Python `int()` strips it,
over the Latin-1 range: tab through carriage return, the separator
controls, space, NEL and NBSP — exactly the Latin-1 code points
`Py_UNICODE_ISSPACE` accepts. Unicode space code points above U+00FF
are outside the model. -/
def pyIsSpace (c : Char) : Bool :=
  (9 ≤ c.toNat && c.toNat ≤ 13) || (28 ≤ c.toNat && c.toNat ≤ 32) ||
    c.toNat == 133 || c.toNat == 160

/-- Leading and trailing whitespace removed, as Python `int()` strips
around a numeric literal. -/
def pyStrip (l : List Char) : List Char :=
  ((l.dropWhile pyIsSpace).reverse.dropWhile pyIsSpace).reverse

/-- Value of an ASCII decimal digit character. -/
def digitVal (c : Char) : Option Nat :=
  if c.isDigit then some (c.toNat - 48) else none

/-- Digits after the first, with Python underscore grouping: a single
underscore may stand between two digits (`1_2` reads as 12), while a
trailing or doubled underscore fails; `acc` holds the value read so
far. -/
def parseDigitsUnd : List Char → Nat → Option Nat
  | [], acc => some acc
  | c :: cs, acc =>
    match digitVal c with
    | some d => parseDigitsUnd cs (acc * 10 + d)
    | none =>
      if c = '_' then
        match cs with
        | [] => none
        | c2 :: cs2 =>
          match digitVal c2 with
          | some d2 => parseDigitsUnd cs2 (acc * 10 + d2)
          | none => none
      else none

/-- An unsigned Python decimal numeral: at least one digit first (a
leading underscore fails), then digits with underscore grouping. -/
def pyIntDigits : List Char → Option Nat
  | [] => none
  | c :: cs =>
    match digitVal c with
    | some d => parseDigitsUnd cs d
    | none => none

/-- Models Python `int(s)` on a string: surrounding whitespace stripped,
an optional sign, then decimal digits with underscore grouping; anything
else raises (returns `none`). Digits are modelled as the ASCII decimal
digits, on which the model agrees with Python exactly; Python
additionally accepts non-ASCII Unicode decimal digits, so claims that
conclude from a conversion FAILURE restrict to ASCII content (see
`isAsciiVal`). -/
def pyIntOfString (s : String) : Option Int :=
  match pyStrip s.data with
  | [] => none
  | c :: cs =>
    if c = '-' then (pyIntDigits cs).map fun n => -(n : Int)
    else if c = '+' then (pyIntDigits cs).map fun n => (n : Int)
    else (pyIntDigits (c :: cs)).map fun n => (n : Int)

/-- Models Python `int(v)` on the JSON value stored in `round`:
ints pass through, booleans become 0/1, numeric strings parse, and
`None` (or a non-numeric string) raises, i.e. returns `none`. -/
def pyIntOf : PyVal → Option Int
  | .int n => some n
  | .boolean b => some (if b then 1 else 0)
  | .str s => pyIntOfString s
  | .none_ => none

/-- Does this JSON value hold only ASCII characters? On such values the
conversion model `pyIntOf` fails exactly where Python `int()` raises
(non-ASCII Unicode decimal digits, which Python would accept, cannot
occur). -/
def isAsciiVal : PyVal → Bool
  | .str s => s.data.all fun c => c.toNat < 128
  | _ => true

/-- Per-character replacement table of Python `html.escape` (with its
default `quote=True`): `&`, `<`, `>`, double quote and apostrophe map to
their entities. -/
def escChar (c : Char) : String :=
  if c = '&' then "&amp;"
  else if c = '<' then "&lt;"
  else if c = '>' then "&gt;"
  else if c = Char.ofNat 34 then "&quot;"
  else if c = Char.ofNat 39 then "&#x27;"
  else String.singleton c

/-- Concatenation of the per-character escapes. -/
def escList : List Char → String
  | [] => ""
  | c :: cs => escChar c ++ escList cs

/-- Models Python `html.escape(s)`: since each replacement of the earlier
rules introduces no character matched by the later rules, Python's
sequence of `str.replace` calls equals this single left-to-right pass. -/
def htmlEscape (s : String) : String := escList s.data

/-- Spaces replaced by hyphens: Python `s.replace(" ", "-")` for the
single-character pattern used here. -/
def replaceSpaces : List Char → List Char
  | [] => []
  | c :: cs => (if c = ' ' then '-' else c) :: replaceSpaces cs

/-- ASCII lowering of one character, as Python `str.lower` acts on the
ASCII strings this handler produces. -/
def lowerChar (c : Char) : Char :=
  if 65 ≤ c.toNat ∧ c.toNat ≤ 90 then Char.ofNat (c.toNat + 32) else c

/-- ASCII lowering of a character list. -/
def lowerList : List Char → List Char
  | [] => []
  | c :: cs => lowerChar c :: lowerList cs

/-- Models the Python chain `s.replace(" ", "-").lower()` from the
repo-name derivation. -/
def pyNormalize (s : String) : String := String.mk (lowerList (replaceSpaces s.data))

/-- Process configuration, read once at startup in the source. -/
structure Env where
  stored_secret : String
  github_username : String
  work_dir : String
deriving Repr, DecidableEq

/-- The parsed JSON object body; `none` in a field means the key is
absent (bodies are modelled as JSON objects, the shape the endpoint is
written for). -/
structure ReqBody where
  secret : Option String := none
  email : Option String := none
  task : Option String := none
  round : Option PyVal := none
  nonce : Option PyVal := none
  brief : Option String := none
  evaluation_url : Option String := none
deriving Repr, DecidableEq

/-- Outcome of one `requests.post` attempt: an HTTP status, or a raised
transport exception. -/
inductive PostOutcome where
  | ok (status : Nat)
  | exn (msg : String)
deriving Repr, DecidableEq

/-- Oracle for the nine subprocess invocations of the publish sequence:
the index of the first failing invocation (if any), and the sha printed
by `git rev-parse HEAD` when it succeeds. -/
structure GitWorld where
  failStep : Option (Fin 9)
  sha : String
deriving Repr, DecidableEq

/-- One externally observable side effect of the handler. -/
inductive Effect where
  | makedirs (path : String)
  | llm (brief : String)
  | writeFile (path : String) (content : String)
  | proc (cwd : Option String) (cmd : List String)
  | postAttempt (url : String) (attempt : Nat)
  | sleep (units : Nat)
deriving Repr, DecidableEq

/-- The success payload: exactly the seven fields the source builds. -/
structure Payload where
  email : String
  task : String
  round : Int
  nonce : PyVal
  repo_url : String
  commit_sha : String
  pages_url : String
deriving Repr, DecidableEq

/-- A JSON response body: an error object or the success payload. -/
inductive Body where
  | err (msg : String)
  | payload (p : Payload)
deriving Repr, DecidableEq

/-- Result of the handler: an HTTP response, or an uncaught exception
escaping the endpoint (an unhandled fault). -/
inductive HResult where
  | resp (status : Nat) (body : Body)
  | fault (msg : String)
deriving Repr, DecidableEq

/-- The LICENSE file contents written by the source. -/
def licenseText : String :=
  "MIT License\n\nCopyright (c) 2025\n\nPermission is hereby granted..."

/-- Extraction of `email` with its default, then `html.escape`, as in
`email = html.escape(data.get("email", "student@example.com"))`. -/
def extractEmail (data : ReqBody) : String :=
  htmlEscape (data.email.getD "student@example.com")

/-- Extraction of `task` with its generated default (`freshId` stands for
the random hex suffix), then `html.escape`. -/
def extractTask (data : ReqBody) (freshId : String) : String :=
  htmlEscape (data.task.getD ("task-" ++ freshId))

/-- The repo name the source derives:
`f"{task}-{round_}".replace(" ", "-").lower()` applied to the escaped
task. -/
def repoNameOf (data : ReqBody) (freshId : String) (round_ : Int) : String :=
  pyNormalize (extractTask data freshId ++ "-" ++ toString round_)

/-- The working directory for the project: `os.path.join(WORK_DIR, repo_name)`. -/
def repoPathOf (env : Env) (data : ReqBody) (freshId : String) (round_ : Int) : String :=
  env.work_dir ++ "/" ++ repoNameOf data freshId round_

/-- The nine subprocess invocations of the publish sequence, in source
order, each with its working directory. -/
def gitCmds (username repo_name repo_path email task : String) :
    List (Option String × List String) :=
  [ (some repo_path, ["git", "init"]),
    (some repo_path, ["git", "branch", "-M", "main"]),
    (some repo_path, ["git", "config", "user.name", "AutoBot"]),
    (some repo_path, ["git", "config", "user.email", email]),
    (some repo_path, ["git", "add", "."]),
    (some repo_path, ["git", "commit", "-m", "Initial commit for " ++ task]),
    (none, ["gh", "repo", "create", repo_name, "--public", "--source", repo_path,
            "--push", "--confirm"]),
    (none, ["gh", "api", "repos/" ++ username ++ "/" ++ repo_name ++ "/pages",
            "-f", "source.branch=main", "-f", "source.path=/"]),
    (some repo_path, ["git", "rev-parse", "HEAD"]) ]

/-- The notification loop body: `for delay in ds` starting at attempt
index `k`. Each attempt posts; a 200 breaks out; any other status sleeps
the current delay and continues; a raised transport exception propagates
out of the loop (it is caught by the surrounding `except`, ending the
whole notification step). -/
def notifyGo (url : String) (posts : Nat → PostOutcome) : List Nat → Nat → List Effect
  | [], _ => []
  | d :: ds, k =>
    match posts k with
    | .exn _ => [.postAttempt url k]
    | .ok st =>
      if st = 200 then [.postAttempt url k]
      else .postAttempt url k :: .sleep d :: notifyGo url posts ds (k + 1)

/-- The notification loop as written: `for delay in [1, 2, 4, 8, 16]`. -/
def notifyEvents (url : String) (posts : Nat → PostOutcome) : List Effect :=
  notifyGo url posts [1, 2, 4, 8, 16] 0

/-- The endpoint `handle_request`, with the external world passed in as
oracles: `body` is the parsed JSON object (or `none` when parsing
raised), `gen` the generator outcome, `git` the subprocess oracle and
`posts` the callback-post oracle. Returns the HTTP result and the trace
of side effects in execution order. -/
def handle_request (env : Env) (freshId : String) (body : Option ReqBody)
    (gen : Except String String) (git : GitWorld) (posts : Nat → PostOutcome) :
    HResult × List Effect :=
  match body with
  | none => (.resp 400 (.err "Invalid JSON"), [])
  | some data =>
    if data.secret = some env.stored_secret then
      let email := extractEmail data
      let task := extractTask data freshId
      match pyIntOf (data.round.getD (.int 1)) with
      | none => (.fault "int conversion failed", [])
      | some round_ =>
        let nonce := data.nonce.getD .none_
        let brief := data.brief.getD ""
        let evaluation_url := data.evaluation_url.getD ""
        let repo_name := pyNormalize (task ++ "-" ++ toString round_)
        let repo_path := env.work_dir ++ "/" ++ repo_name
        match gen with
        | .error e =>
          (.resp 500 (.err ("LLM generation failed: " ++ e)),
           [.makedirs repo_path, .llm brief])
        | .ok generated_code =>
          let preProc : List Effect :=
            [.makedirs repo_path, .llm brief,
             .writeFile (repo_path ++ "/index.html") generated_code,
             .writeFile (repo_path ++ "/README.md")
               ("# " ++ task ++ "\n\n" ++ brief ++ "\n\nAuto-generated for " ++ email
                 ++ " (Round " ++ toString round_ ++ ")."),
             .writeFile (repo_path ++ "/LICENSE") licenseText]
          let cmds := gitCmds env.github_username repo_name repo_path email task
          match git.failStep with
          | some k =>
            (.fault "subprocess failed",
             preProc ++ (cmds.take (k.val + 1)).map fun c => .proc c.1 c.2)
          | none =>
            let repo_url := "https://github.com/" ++ env.github_username ++ "/" ++ repo_name
            let commit_sha := git.sha
            let pages_url :=
              "https://" ++ env.github_username ++ ".github.io/" ++ repo_name ++ "/"
            let response_payload : Payload :=
              { email := email, task := task, round := round_, nonce := nonce,
                repo_url := repo_url, commit_sha := commit_sha, pages_url := pages_url }
            let notifyFx :=
              if evaluation_url = "" then [] else notifyEvents evaluation_url posts
            (.resp 200 (.payload response_payload),
             (preProc ++ cmds.map fun c => .proc c.1 c.2) ++ notifyFx)
    else (.resp 403 (.err "Invalid secret"), [])

/-- Is this effect an outbound callback post? -/
def isPost : Effect → Bool
  | .postAttempt _ _ => true
  | _ => false

/-- Is this effect a backoff sleep? -/
def isSleep : Effect → Bool
  | .sleep _ => true
  | _ => false

/-- Number of callback post attempts in a trace. -/
def countPosts (effs : List Effect) : Nat := (effs.filter isPost).length

/-- The subprocess invocations of a trace, in order. -/
def procCmds : List Effect → List (Option String × List String)
  | [] => []
  | .proc cwd cmd :: es => (cwd, cmd) :: procCmds es
  | .makedirs _ :: es => procCmds es
  | .llm _ :: es => procCmds es
  | .writeFile _ _ :: es => procCmds es
  | .postAttempt _ _ :: es => procCmds es
  | .sleep _ :: es => procCmds es

/-- The project-identity formula as the specification states it:
`lower(replace(task+"-"+round, " ", "-"))`. -/
def projectIdentitySpec (task : String) (round : Int) : String :=
  String.mk (lowerList (replaceSpaces (task.data ++ ("-" ++ toString round).data)))

/-! ### Fixtures used by witnesses and counterexamples -/

/-- A concrete process configuration. -/
def envEx : Env := { stored_secret := "S", github_username := "u", work_dir := "wd" }

/-- A subprocess oracle on which all nine publish steps succeed. -/
def gitOk : GitWorld := { failStep := none, sha := "abc123" }

/-- The end-to-end request of the specification:
`{secret: "S", task: "Quiz App", round: 1, brief: "a quiz app"}`. -/
def reqQuiz : ReqBody :=
  { secret := some "S", task := some "Quiz App", round := some (PyVal.int 1),
    brief := some "a quiz app" }

/-- A request whose email contains a character `html.escape` rewrites. -/
def reqAmp : ReqBody :=
  { secret := some "S", email := some "a&b@c", round := some (PyVal.int 1) }

/-- The end-to-end request with a callback URL supplied. -/
def reqCb : ReqBody :=
  { secret := some "S", task := some "Quiz App", round := some (PyVal.int 1),
    brief := some "a quiz app", evaluation_url := some "http://cb" }

/-! ### Helper lemmas on the notification loop and traces -/

/-- A transport exception on the current attempt ends the loop with just
that attempt recorded. -/
lemma notifyGo_exn (url m : String) (posts : Nat → PostOutcome) (d : Nat)
    (ds : List Nat) (k : Nat) (h : posts k = .exn m) :
    notifyGo url posts (d :: ds) k = [.postAttempt url k] := by
  simp [notifyGo, h]

/-- An HTTP 200 on the current attempt breaks out of the loop with just
that attempt recorded. -/
lemma notifyGo_ok200 (url : String) (posts : Nat → PostOutcome) (d : Nat)
    (ds : List Nat) (k : Nat) (h : posts k = .ok 200) :
    notifyGo url posts (d :: ds) k = [.postAttempt url k] := by
  simp [notifyGo, h]

/-- A non-200 status on the current attempt records the attempt, sleeps
the current delay, and continues with the remaining delays. -/
lemma notifyGo_fail (url : String) (posts : Nat → PostOutcome) (d : Nat)
    (ds : List Nat) (k : Nat) (st : Nat) (h : posts k = .ok st) (hne : st ≠ 200) :
    notifyGo url posts (d :: ds) k =
      .postAttempt url k :: .sleep d :: notifyGo url posts ds (k + 1) := by
  simp [notifyGo, h, hne]

/-! ### C1: dispatcher attempt/backoff schedule -/

/-- C1 counterexample: with a callback endpoint that returns a non-200
status on every attempt, the dispatcher performs its five attempts but
the trace ends with a 16-unit sleep AFTER the fifth attempt, refuting
the claim that the wait occurs only between attempts and that no wait
follows the fifth. -/
theorem C1_counterexample :
    notifyEvents "u" (fun _ => PostOutcome.ok 500)
      = [.postAttempt "u" 0, .sleep 1, .postAttempt "u" 1, .sleep 2,
         .postAttempt "u" 2, .sleep 4, .postAttempt "u" 3, .sleep 8,
         .postAttempt "u" 4, .sleep 16]
    ∧ (notifyEvents "u" (fun _ => PostOutcome.ok 500)).getLast? = some (Effect.sleep 16)
    ∧ countPosts (notifyEvents "u" (fun _ => PostOutcome.ok 500)) = 5 := by
  refine ⟨by decide, by decide, by decide⟩

/-- C1 (amended): the dispatcher attempts at most 5 times and stops
immediately on the first HTTP 200 with no wait after it; each FAILED
attempt, however, is followed by its backoff wait (1, 2, 4, 8, 16), so
when every response is non-200 exactly 5 attempts occur and a final
16-unit wait follows the 5th; when the first four responses are non-200
and the fifth is 200, exactly 5 attempts occur with waits 1, 2, 4, 8
between them and none after the 5th. -/
theorem C1_retry_schedule (u : String) (pAll pLate pSucc : Nat → PostOutcome)
    (d : Nat) (ds : List Nat) (k : Nat)
    (hAll : ∀ n, n < 5 → ∃ st, pAll n = PostOutcome.ok st ∧ st ≠ 200)
    (hLate : ∀ n, n < 4 → ∃ st, pLate n = PostOutcome.ok st ∧ st ≠ 200)
    (hLate200 : pLate 4 = PostOutcome.ok 200)
    (hSucc : pSucc k = PostOutcome.ok 200) :
    notifyEvents u pAll
      = [.postAttempt u 0, .sleep 1, .postAttempt u 1, .sleep 2,
         .postAttempt u 2, .sleep 4, .postAttempt u 3, .sleep 8,
         .postAttempt u 4, .sleep 16]
    ∧ notifyEvents u pLate
      = [.postAttempt u 0, .sleep 1, .postAttempt u 1, .sleep 2,
         .postAttempt u 2, .sleep 4, .postAttempt u 3, .sleep 8,
         .postAttempt u 4]
    ∧ notifyGo u pSucc (d :: ds) k = [.postAttempt u k] := by
  obtain ⟨s0, h0, h0n⟩ := hAll 0 (by omega)
  obtain ⟨s1, h1, h1n⟩ := hAll 1 (by omega)
  obtain ⟨s2, h2, h2n⟩ := hAll 2 (by omega)
  obtain ⟨s3, h3, h3n⟩ := hAll 3 (by omega)
  obtain ⟨s4, h4, h4n⟩ := hAll 4 (by omega)
  obtain ⟨t0, g0, g0n⟩ := hLate 0 (by omega)
  obtain ⟨t1, g1, g1n⟩ := hLate 1 (by omega)
  obtain ⟨t2, g2, g2n⟩ := hLate 2 (by omega)
  obtain ⟨t3, g3, g3n⟩ := hLate 3 (by omega)
  refine ⟨?_, ?_, notifyGo_ok200 u pSucc d ds k hSucc⟩
  · show notifyGo u pAll [1, 2, 4, 8, 16] 0 = _
    rw [notifyGo_fail u pAll 1 _ 0 s0 h0 h0n,
        notifyGo_fail u pAll 2 _ 1 s1 h1 h1n,
        notifyGo_fail u pAll 4 _ 2 s2 h2 h2n,
        notifyGo_fail u pAll 8 _ 3 s3 h3 h3n,
        notifyGo_fail u pAll 16 _ 4 s4 h4 h4n]
    rfl
  · show notifyGo u pLate [1, 2, 4, 8, 16] 0 = _
    rw [notifyGo_fail u pLate 1 _ 0 t0 g0 g0n,
        notifyGo_fail u pLate 2 _ 1 t1 g1 g1n,
        notifyGo_fail u pLate 4 _ 2 t2 g2 g2n,
        notifyGo_fail u pLate 8 _ 3 t3 g3 g3n,
        notifyGo_ok200 u pLate 16 _ 4 hLate200]

/-- C1 witness: the amended schedule instantiated at concrete stub
endpoints (always-500; four 500s then 200; immediate 200). -/
theorem C1_retry_schedule_witness :
    notifyEvents "u" (fun _ => PostOutcome.ok 500)
      = [.postAttempt "u" 0, .sleep 1, .postAttempt "u" 1, .sleep 2,
         .postAttempt "u" 2, .sleep 4, .postAttempt "u" 3, .sleep 8,
         .postAttempt "u" 4, .sleep 16]
    ∧ notifyEvents "u" (fun n => if n < 4 then PostOutcome.ok 500 else PostOutcome.ok 200)
      = [.postAttempt "u" 0, .sleep 1, .postAttempt "u" 1, .sleep 2,
         .postAttempt "u" 2, .sleep 4, .postAttempt "u" 3, .sleep 8,
         .postAttempt "u" 4]
    ∧ notifyGo "u" (fun _ => PostOutcome.ok 200) [1] 0 = [.postAttempt "u" 0] :=
  C1_retry_schedule "u" (fun _ => PostOutcome.ok 500)
    (fun n => if n < 4 then PostOutcome.ok 500 else PostOutcome.ok 200)
    (fun _ => PostOutcome.ok 200) 1 [] 0
    (fun n _ => ⟨500, rfl, by decide⟩)
    (fun n hn => ⟨500, by simp [hn], by decide⟩)
    (by simp) rfl

/-! ### C5: transport failures inside the dispatcher -/

/-- C5 counterexample: when the first post attempt raises a transport
exception, the loop ends immediately — one attempt, no backoff sleep, no
further attempts — refuting the claim that a transport failure proceeds
to backoff and the next attempt like a non-200 response. -/
theorem C5_counterexample :
    notifyEvents "u" (fun _ => PostOutcome.exn "boom") = [.postAttempt "u" 0]
    ∧ countPosts (notifyEvents "u" (fun _ => PostOutcome.exn "boom")) = 1 := by
  refine ⟨by decide, by decide⟩

/-- C5 (amended): a transport exception raised by any individual post
attempt aborts the whole notification loop at once — the failing attempt
is recorded, with no backoff wait and no later attempt — because the
`try` wraps the entire loop; only a non-200 response proceeds to backoff
and the next attempt. -/
theorem C5_transport_aborts (u m : String) (posts : Nat → PostOutcome)
    (d : Nat) (ds : List Nat) (k : Nat) (hexn : posts k = PostOutcome.exn m) :
    notifyGo u posts (d :: ds) k = [.postAttempt u k]
    ∧ countPosts (notifyGo u posts (d :: ds) k) = 1 := by
  refine ⟨notifyGo_exn u m posts d ds k hexn, ?_⟩
  rw [notifyGo_exn u m posts d ds k hexn]
  rfl

/-- C5 witness: the abort behaviour at a concrete raising attempt. -/
theorem C5_transport_aborts_witness :
    notifyGo "u" (fun _ => PostOutcome.exn "boom") [1, 2] 0 = [.postAttempt "u" 0]
    ∧ countPosts (notifyGo "u" (fun _ => PostOutcome.exn "boom") [1, 2] 0) = 1 :=
  C5_transport_aborts "u" "boom" (fun _ => PostOutcome.exn "boom") 1 [2] 0 rfl

/-! ### Helper lemmas on traces and escaping -/

/-- The subprocess extraction distributes over trace concatenation. -/
lemma procCmds_append (a b : List Effect) :
    procCmds (a ++ b) = procCmds a ++ procCmds b := by
  induction a with
  | nil => rfl
  | cons e es ih => cases e <;> simp [procCmds, ih]

/-- A mapped command list extracts back to itself. -/
lemma procCmds_map_proc (l : List (Option String × List String)) :
    procCmds (l.map fun c => Effect.proc c.1 c.2) = l := by
  induction l with
  | nil => rfl
  | cons c cs ih => simp [procCmds, ih]

/-- The notification loop performs no subprocess invocation. -/
lemma procCmds_notifyGo (url : String) (posts : Nat → PostOutcome) :
    ∀ (ds : List Nat) (k : Nat), procCmds (notifyGo url posts ds k) = []
  | [], _ => rfl
  | d :: ds, k => by
    cases h : posts k with
    | exn m => rw [notifyGo_exn url m posts d ds k h]; rfl
    | ok st =>
      by_cases h2 : st = 200
      · subst h2; rw [notifyGo_ok200 url posts d ds k h]; rfl
      · rw [notifyGo_fail url posts d ds k st h h2]
        simp [procCmds, procCmds_notifyGo url posts ds (k + 1)]

/-- The notification step of the handler, skipped or not, performs no
subprocess invocation. -/
lemma procCmds_ite_notify (c : Prop) [Decidable c] (url : String)
    (posts : Nat → PostOutcome) :
    procCmds (if c then [] else notifyEvents url posts) = [] := by
  split
  · rfl
  · exact procCmds_notifyGo url posts [1, 2, 4, 8, 16] 0

/-- A mapped command list contains no callback post. -/
lemma countPosts_map_proc (l : List (Option String × List String)) :
    countPosts (l.map fun c => Effect.proc c.1 c.2) = 0 := by
  induction l with
  | nil => rfl
  | cons c cs ih => simpa [countPosts, isPost, List.filter_cons] using ih

/-- Post counting distributes over trace concatenation. -/
lemma countPosts_append (a b : List Effect) :
    countPosts (a ++ b) = countPosts a + countPosts b := by
  simp [countPosts, List.filter_append]

/-- Every per-character escape is at least one character long. -/
lemma one_le_escChar_length (c : Char) : 1 ≤ (escChar c).length := by
  unfold escChar
  repeat' split
  all_goals simp [String.length, String.singleton]

/-- Escaping never shortens a string. -/
lemma escList_length (l : List Char) : l.length ≤ (escList l).length := by
  induction l with
  | nil => simp [escList]
  | cons c cs ih =>
    simp only [escList, String.length_append, List.length_cons]
    have := one_le_escChar_length c
    omega

/-- Escaping strictly lengthens a string holding a character whose
escape is at least four characters long. -/
lemma escList_length_lt (l : List Char) (c : Char) (hc : c ∈ l)
    (hbig : 4 ≤ (escChar c).length) : l.length < (escList l).length := by
  induction l with
  | nil => cases hc
  | cons a as ih =>
    simp only [escList, String.length_append, List.length_cons]
    rcases List.mem_cons.mp hc with h | h
    · subst h
      have := escList_length as
      omega
    · have h1 := ih h
      have h2 := one_le_escChar_length a
      omega

/-- A string holding a character with a long escape is changed by
`htmlEscape`. -/
lemma htmlEscape_ne (s : String) (c : Char) (hc : c ∈ s.data)
    (hbig : 4 ≤ (escChar c).length) : htmlEscape s ≠ s := by
  intro h
  have hlt := escList_length_lt s.data c hc hbig
  have h2 : (escList s.data).length = s.length := congrArg String.length h
  have h3 : s.length = s.data.length := rfl
  rw [h3] at h2
  omega

/-- The success payload exactly as the source assembles it, before the
notification step runs. -/
def successPayload (env : Env) (freshId : String) (data : ReqBody) (git : GitWorld)
    (r : Int) : Payload :=
  { email := extractEmail data,
    task := extractTask data freshId,
    round := r,
    nonce := data.nonce.getD PyVal.none_,
    repo_url := "https://github.com/" ++ env.github_username ++ "/" ++ repoNameOf data freshId r,
    commit_sha := git.sha,
    pages_url :=
      "https://" ++ env.github_username ++ ".github.io/" ++ repoNameOf data freshId r ++ "/" }

/-! ### C3: rejection of unparseable bodies and wrong secrets -/

/-- C3: an unparseable body yields a 400 with an empty effect trace, and
a parseable body whose secret differs from the shared credential yields
a 403 with an empty effect trace — no generator, materializer, publisher
or dispatcher effect occurs in either case. -/
theorem C3_rejection (env : Env) (freshId : String) (data : ReqBody)
    (gen : Except String String) (git : GitWorld) (posts : Nat → PostOutcome)
    (hbad : data.secret ≠ some env.stored_secret) :
    handle_request env freshId none gen git posts
      = (HResult.resp 400 (Body.err "Invalid JSON"), [])
    ∧ handle_request env freshId (some data) gen git posts
      = (HResult.resp 403 (Body.err "Invalid secret"), []) := by
  refine ⟨rfl, ?_⟩
  simp [handle_request, hbad]

/-- C3 witness: the rejection paths at a concrete wrong-secret request. -/
theorem C3_rejection_witness :
    handle_request envEx "x" none (Except.ok "code") gitOk (fun _ => PostOutcome.ok 200)
      = (HResult.resp 400 (Body.err "Invalid JSON"), [])
    ∧ handle_request envEx "x" (some { secret := some "WRONG" }) (Except.ok "code") gitOk
        (fun _ => PostOutcome.ok 200)
      = (HResult.resp 403 (Body.err "Invalid secret"), []) :=
  C3_rejection envEx "x" { secret := some "WRONG" } (Except.ok "code") gitOk
    (fun _ => PostOutcome.ok 200) (by decide)

/-! ### C10: non-integer round raises before any side effect -/

/-- C10: when the round field is present with ASCII content (where the
conversion model coincides with Python `int()`) but `int()` cannot
convert it, the handler raises an uncaught conversion error — the result
is an unhandled fault, not a 400 response — and the effect trace is
empty, so no directory is created and no file is written. -/
theorem C10_round_fault (env : Env) (freshId : String) (data : ReqBody) (v : PyVal)
    (gen : Except String String) (git : GitWorld) (posts : Nat → PostOutcome)
    (hsec : data.secret = some env.stored_secret)
    (hpresent : data.round = some v)
    (_hascii : isAsciiVal v = true)
    (hconv : pyIntOf v = none) :
    handle_request env freshId (some data) gen git posts
      = (HResult.fault "int conversion failed", []) := by
  simp [handle_request, hsec, hpresent, hconv]

/-- C10 witness: a round of `"abc"` faults with an empty trace. -/
theorem C10_round_fault_witness :
    handle_request envEx "x"
        (some { secret := some "S", round := some (PyVal.str "abc") })
        (Except.ok "code") gitOk (fun _ => PostOutcome.ok 200)
      = (HResult.fault "int conversion failed", []) :=
  C10_round_fault envEx "x" { secret := some "S", round := some (PyVal.str "abc") }
    (PyVal.str "abc") (Except.ok "code") gitOk (fun _ => PostOutcome.ok 200)
    rfl rfl (by decide) (by decide)

/-! ### C4: generation failure -/

/-- C4 counterexample: for a concrete authenticated request whose
generator fails, the response is indeed 500 and no materializer,
publisher or dispatcher effect occurs, but the trace starts with the
creation of the project directory (`os.makedirs` runs before the
generator is called), refuting the part of the claim that no file-system
side effect takes place before the 500 is returned. -/
theorem C4_counterexample :
    handle_request envEx "x" (some reqQuiz) (Except.error "boom") gitOk
        (fun _ => PostOutcome.ok 200)
      = (HResult.resp 500 (Body.err "LLM generation failed: boom"),
         [Effect.makedirs "wd/quiz-app-1", Effect.llm "a quiz app"]) := by
  decide

/-- C4 (amended): when the generator fails on an authenticated request,
the response is a 500 error and no materializer file write, publisher
subprocess, or dispatcher post occurs — but the project directory has
already been created by `os.makedirs` before the generator ran, so that
one file-system side effect does precede the 500. -/
theorem C4_generation_failure (env : Env) (freshId : String) (data : ReqBody)
    (e : String) (git : GitWorld) (posts : Nat → PostOutcome) (r : Int)
    (hsec : data.secret = some env.stored_secret)
    (hround : pyIntOf (data.round.getD (PyVal.int 1)) = some r) :
    handle_request env freshId (some data) (Except.error e) git posts
      = (HResult.resp 500 (Body.err ("LLM generation failed: " ++ e)),
         [Effect.makedirs (repoPathOf env data freshId r),
          Effect.llm (data.brief.getD "")]) := by
  simp [handle_request, hsec, hround, repoPathOf, repoNameOf, extractTask]

/-- C4 witness: the amended behaviour at the concrete request of the
counterexample. -/
theorem C4_generation_failure_witness :
    handle_request envEx "x" (some reqQuiz) (Except.error "boom") gitOk
        (fun _ => PostOutcome.ok 200)
      = (HResult.resp 500 (Body.err ("LLM generation failed: " ++ "boom")),
         [Effect.makedirs (repoPathOf envEx reqQuiz "x" 1),
          Effect.llm (reqQuiz.brief.getD "")]) :=
  C4_generation_failure envEx "x" reqQuiz "boom" gitOk (fun _ => PostOutcome.ok 200) 1
    rfl rfl

/-- Trace of the handler when the `k`-th subprocess invocation fails:
the directory creation, the generator call, the three file writes, then
exactly the first `k+1` publish invocations. -/
lemma handle_request_failTrace (env : Env) (freshId : String) (data : ReqBody)
    (code : String) (git : GitWorld) (posts : Nat → PostOutcome) (k : Fin 9) (r : Int)
    (hsec : data.secret = some env.stored_secret)
    (hround : pyIntOf (data.round.getD (PyVal.int 1)) = some r)
    (hB : git.failStep = some k) :
    (handle_request env freshId (some data) (Except.ok code) git posts).snd
      = [Effect.makedirs (repoPathOf env data freshId r),
         Effect.llm (data.brief.getD ""),
         Effect.writeFile (repoPathOf env data freshId r ++ "/index.html") code,
         Effect.writeFile (repoPathOf env data freshId r ++ "/README.md")
           ("# " ++ extractTask data freshId ++ "\n\n" ++ data.brief.getD "" ++
            "\n\nAuto-generated for " ++ extractEmail data ++ " (Round " ++
            toString r ++ ")."),
         Effect.writeFile (repoPathOf env data freshId r ++ "/LICENSE") licenseText]
        ++ ((gitCmds env.github_username (repoNameOf data freshId r)
              (repoPathOf env data freshId r) (extractEmail data)
              (extractTask data freshId)).take (k.val + 1)).map
            fun c => Effect.proc c.1 c.2 := by
  simp [handle_request, hsec, hround, hB, repoPathOf, repoNameOf, extractTask,
    extractEmail]

/-! ### C2: publisher step order and abort-on-failure -/

/-- C2: on an authenticated, generated request, the subprocess trace is
exactly the nine-invocation publish sequence in source order — init, set
branch, configure committer name, configure committer email, stage,
commit, create-and-push the remote named by the project identity, enable
pages rooted at the main branch top directory, read back the commit
hash — and when the `k`-th invocation fails, the trace holds exactly the
first `k+1` invocations (the failing one included, none after it), the
handler ends in an unhandled fault, and no dispatcher post ever runs. -/
theorem C2_publish_order (env : Env) (freshId : String) (data : ReqBody) (code : String)
    (gitA gitB : GitWorld) (k : Fin 9) (posts : Nat → PostOutcome) (r : Int)
    (hsec : data.secret = some env.stored_secret)
    (hround : pyIntOf (data.round.getD (PyVal.int 1)) = some r)
    (hA : gitA.failStep = none)
    (hB : gitB.failStep = some k) :
    procCmds (handle_request env freshId (some data) (Except.ok code) gitA posts).snd
      = gitCmds env.github_username (repoNameOf data freshId r)
          (repoPathOf env data freshId r) (extractEmail data) (extractTask data freshId)
    ∧ procCmds (handle_request env freshId (some data) (Except.ok code) gitB posts).snd
      = (gitCmds env.github_username (repoNameOf data freshId r)
          (repoPathOf env data freshId r) (extractEmail data)
          (extractTask data freshId)).take (k.val + 1)
    ∧ (handle_request env freshId (some data) (Except.ok code) gitB posts).fst
      = HResult.fault "subprocess failed"
    ∧ countPosts (handle_request env freshId (some data) (Except.ok code) gitB posts).snd
      = 0 := by
  refine ⟨?_, ?_, ?_, ?_⟩
  · simp [handle_request, hsec, hround, hA, gitCmds, procCmds, procCmds_append,
      procCmds_ite_notify, repoNameOf, repoPathOf, extractTask, extractEmail]
  · rw [handle_request_failTrace env freshId data code gitB posts k r hsec hround hB,
      procCmds_append, procCmds_map_proc]
    rfl
  · simp [handle_request, hsec, hround, hB]
  · rw [handle_request_failTrace env freshId data code gitB posts k r hsec hround hB,
      countPosts_append, countPosts_map_proc]
    rfl

/-- C2 witness: the publish sequence at the concrete end-to-end request,
with one oracle on which every step succeeds and one failing at the
sixth invocation (the commit). -/
theorem C2_publish_order_witness :
    procCmds (handle_request envEx "x" (some reqQuiz) (Except.ok "code") gitOk
        (fun _ => PostOutcome.ok 200)).snd
      = gitCmds envEx.github_username (repoNameOf reqQuiz "x" 1)
          (repoPathOf envEx reqQuiz "x" 1) (extractEmail reqQuiz) (extractTask reqQuiz "x")
    ∧ procCmds (handle_request envEx "x" (some reqQuiz) (Except.ok "code")
        { failStep := some 5, sha := "abc123" } (fun _ => PostOutcome.ok 200)).snd
      = (gitCmds envEx.github_username (repoNameOf reqQuiz "x" 1)
          (repoPathOf envEx reqQuiz "x" 1) (extractEmail reqQuiz)
          (extractTask reqQuiz "x")).take ((5 : Fin 9).val + 1)
    ∧ (handle_request envEx "x" (some reqQuiz) (Except.ok "code")
        { failStep := some 5, sha := "abc123" } (fun _ => PostOutcome.ok 200)).fst
      = HResult.fault "subprocess failed"
    ∧ countPosts (handle_request envEx "x" (some reqQuiz) (Except.ok "code")
        { failStep := some 5, sha := "abc123" } (fun _ => PostOutcome.ok 200)).snd
      = 0 :=
  C2_publish_order envEx "x" reqQuiz "code" gitOk { failStep := some 5, sha := "abc123" }
    5 (fun _ => PostOutcome.ok 200) 1 rfl rfl rfl rfl

/-! ### C6: the dispatcher never alters the success response -/

/-- C6: on the success path the handler's response is the 200 with the
payload computed before notification, identical under every
callback-post oracle (including ones that raise on every attempt), so
the dispatcher never raises to its caller and never modifies the
response; and when the request supplies no callback URL, the trace holds
no post attempt and no backoff sleep at all. -/
theorem C6_dispatcher_isolation (env : Env) (freshId : String)
    (data dataNoUrl : ReqBody) (code : String) (git : GitWorld)
    (posts posts2 : Nat → PostOutcome) (r rN : Int)
    (hsec : data.secret = some env.stored_secret)
    (hround : pyIntOf (data.round.getD (PyVal.int 1)) = some r)
    (hgit : git.failStep = none)
    (hsecN : dataNoUrl.secret = some env.stored_secret)
    (hroundN : pyIntOf (dataNoUrl.round.getD (PyVal.int 1)) = some rN)
    (hnoUrl : dataNoUrl.evaluation_url.getD "" = "") :
    (handle_request env freshId (some data) (Except.ok code) git posts).fst
      = (handle_request env freshId (some data) (Except.ok code) git posts2).fst
    ∧ (handle_request env freshId (some data) (Except.ok code) git posts).fst
      = HResult.resp 200 (Body.payload (successPayload env freshId data git r))
    ∧ List.filter isPost
        (handle_request env freshId (some dataNoUrl) (Except.ok code) git posts).snd = []
    ∧ List.filter isSleep
        (handle_request env freshId (some dataNoUrl) (Except.ok code) git posts).snd
      = [] := by
  refine ⟨?_, ?_, ?_, ?_⟩
  · simp [handle_request, hsec, hround, hgit]
  · simp [handle_request, hsec, hround, hgit, successPayload, repoNameOf]
  · simp [handle_request, hsecN, hroundN, hgit, hnoUrl, gitCmds, List.filter_cons,
      List.filter_append, isPost]
  · simp [handle_request, hsecN, hroundN, hgit, hnoUrl, gitCmds, List.filter_cons,
      List.filter_append, isSleep]

/-- C6 witness: the isolation at the concrete callback request, with one
oracle always raising and one always succeeding, and the skip behaviour
at the concrete request without a callback URL. -/
theorem C6_dispatcher_isolation_witness :
    (handle_request envEx "x" (some reqCb) (Except.ok "code") gitOk
        (fun _ => PostOutcome.exn "down")).fst
      = (handle_request envEx "x" (some reqCb) (Except.ok "code") gitOk
          (fun _ => PostOutcome.ok 200)).fst
    ∧ (handle_request envEx "x" (some reqCb) (Except.ok "code") gitOk
        (fun _ => PostOutcome.exn "down")).fst
      = HResult.resp 200 (Body.payload (successPayload envEx "x" reqCb gitOk 1))
    ∧ List.filter isPost (handle_request envEx "x" (some reqQuiz) (Except.ok "code") gitOk
        (fun _ => PostOutcome.exn "down")).snd = []
    ∧ List.filter isSleep (handle_request envEx "x" (some reqQuiz) (Except.ok "code") gitOk
        (fun _ => PostOutcome.exn "down")).snd = [] :=
  C6_dispatcher_isolation envEx "x" reqCb reqQuiz "code" gitOk
    (fun _ => PostOutcome.exn "down") (fun _ => PostOutcome.ok 200) 1 1
    rfl rfl rfl rfl rfl rfl

/-! ### C7: derivation of the project identity -/

/-- C7: for every authenticated request the repo name the handler
derives equals the spec formula `lower(replace(task+"-"+round, " ", "-"))`
applied to the extracted task field (the escaped task, see C9); that
identity is used as the working-directory name (the first trace effect
creates `WORK_DIR/identity`) and as the remote repository name (the
`gh repo create` invocation, twelfth trace effect, names it). -/
theorem C7_project_identity (env : Env) (freshId : String) (data : ReqBody)
    (code : String) (git : GitWorld) (posts : Nat → PostOutcome) (r : Int)
    (hsec : data.secret = some env.stored_secret)
    (hround : pyIntOf (data.round.getD (PyVal.int 1)) = some r)
    (hgit : git.failStep = none) :
    repoNameOf data freshId r = projectIdentitySpec (extractTask data freshId) r
    ∧ (handle_request env freshId (some data) (Except.ok code) git posts).snd.head?
        = some (Effect.makedirs
            (env.work_dir ++ "/" ++ projectIdentitySpec (extractTask data freshId) r))
    ∧ (handle_request env freshId (some data) (Except.ok code) git posts).snd.get? 11
        = some (Effect.proc none
            ["gh", "repo", "create", projectIdentitySpec (extractTask data freshId) r,
             "--public", "--source",
             env.work_dir ++ "/" ++ projectIdentitySpec (extractTask data freshId) r,
             "--push", "--confirm"]) := by
  have hspec : repoNameOf data freshId r = projectIdentitySpec (extractTask data freshId) r := by
    simp [repoNameOf, projectIdentitySpec, pyNormalize, String.data_append]
  refine ⟨hspec, ?_, ?_⟩
  · rw [← hspec]
    simp [handle_request, hsec, hround, hgit, repoNameOf, repoPathOf, extractTask,
      extractEmail, gitCmds]
  · rw [← hspec]
    simp [handle_request, hsec, hround, hgit, repoNameOf, repoPathOf, extractTask,
      extractEmail, gitCmds]

/-- C7 witness: the identity at the concrete end-to-end request, where
task `"Quiz App"` and round 1 give `"quiz-app-1"`. -/
theorem C7_project_identity_witness :
    repoNameOf reqQuiz "x" 1 = projectIdentitySpec (extractTask reqQuiz "x") 1
    ∧ (handle_request envEx "x" (some reqQuiz) (Except.ok "code") gitOk
        (fun _ => PostOutcome.ok 200)).snd.head?
        = some (Effect.makedirs
            (envEx.work_dir ++ "/" ++ projectIdentitySpec (extractTask reqQuiz "x") 1))
    ∧ (handle_request envEx "x" (some reqQuiz) (Except.ok "code") gitOk
        (fun _ => PostOutcome.ok 200)).snd.get? 11
        = some (Effect.proc none
            ["gh", "repo", "create", projectIdentitySpec (extractTask reqQuiz "x") 1,
             "--public", "--source",
             envEx.work_dir ++ "/" ++ projectIdentitySpec (extractTask reqQuiz "x") 1,
             "--push", "--confirm"]) :=
  C7_project_identity envEx "x" reqQuiz "code" gitOk (fun _ => PostOutcome.ok 200) 1
    rfl rfl rfl

/-! ### C8: the success response -/

/-- C8 counterexample: a request whose email is `"a&b@c"` succeeds with a
payload whose email field is the escaped `"a&amp;b@c"`, not the request's
value, refuting the claim that the email and task fields of the success
body echo the request's values. -/
theorem C8_counterexample :
    (handle_request envEx "x" (some reqAmp) (Except.ok "code") gitOk
        (fun _ => PostOutcome.ok 200)).fst
      = HResult.resp 200 (Body.payload
          { email := "a&amp;b@c", task := "task-x", round := 1, nonce := PyVal.none_,
            repo_url := "https://github.com/u/task-x-1", commit_sha := "abc123",
            pages_url := "https://u.github.io/task-x-1/" })
    ∧ reqAmp.email = some "a&b@c"
    ∧ ("a&amp;b@c" : String) ≠ "a&b@c" := by
  refine ⟨by decide, rfl, by decide⟩

/-- C8 (amended): on full success the endpoint returns 200 with a body
holding exactly the fields email, task, round, nonce, repo_url,
commit_sha and pages_url; missing request fields take their defaults
(email `student@example.com`, round 1 — applied before escaping), nonce
is echoed back unmodified, and task and email carry the request's values
passed through HTML entity escaping (identical to the request's strings
whenever they hold no character `html.escape` rewrites, as in the
end-to-end example with task `"Quiz App"`). -/
theorem C8_success_payload (env : Env) (freshId : String) (data : ReqBody)
    (code : String) (git : GitWorld) (posts : Nat → PostOutcome) (r : Int)
    (hsec : data.secret = some env.stored_secret)
    (hround : pyIntOf (data.round.getD (PyVal.int 1)) = some r)
    (hgit : git.failStep = none) :
    (handle_request env freshId (some data) (Except.ok code) git posts).fst
      = HResult.resp 200 (Body.payload (successPayload env freshId data git r)) := by
  simp [handle_request, hsec, hround, hgit, successPayload, repoNameOf]

/-- C8 witness: the §8 end-to-end request (`secret "S"`, task
`"Quiz App"`, round 1, brief `"a quiz app"`) with the generator stubbed
and all publish steps succeeding with sha `"abc123"` yields exactly the
payload the specification lists. -/
theorem C8_success_payload_witness :
    (handle_request envEx "x" (some reqQuiz) (Except.ok "<html>..</html>") gitOk
        (fun _ => PostOutcome.ok 200)).fst
      = HResult.resp 200 (Body.payload
          { email := "student@example.com", task := "Quiz App", round := 1,
            nonce := PyVal.none_, repo_url := "https://github.com/u/quiz-app-1",
            commit_sha := "abc123", pages_url := "https://u.github.io/quiz-app-1/" }) :=
  (C8_success_payload envEx "x" reqQuiz "<html>..</html>" gitOk
      (fun _ => PostOutcome.ok 200) 1 rfl rfl rfl).trans (by decide)

/-! ### C9: HTML entity escaping of email and task -/

/-- C9: on the success path the payload's email and task fields, the
README contents, the `git config user.email` invocation and the derived
project identity all use the `html.escape`d forms of the request's email
and task (defaults applied first); and escaping changes any string
holding `&`, `<` or `>`, so those uses differ from the request's
verbatim strings whenever such a character appears. -/
theorem C9_escaped_uses (env : Env) (freshId : String) (data : ReqBody)
    (code : String) (git : GitWorld) (posts : Nat → PostOutcome) (r : Int) (s : String)
    (hsec : data.secret = some env.stored_secret)
    (hround : pyIntOf (data.round.getD (PyVal.int 1)) = some r)
    (hgit : git.failStep = none)
    (hs : ('&' ∈ s.data) ∨ ('<' ∈ s.data) ∨ ('>' ∈ s.data)) :
    (handle_request env freshId (some data) (Except.ok code) git posts).fst
      = HResult.resp 200 (Body.payload (successPayload env freshId data git r))
    ∧ (successPayload env freshId data git r).email
        = htmlEscape (data.email.getD "student@example.com")
    ∧ (successPayload env freshId data git r).task
        = htmlEscape (data.task.getD ("task-" ++ freshId))
    ∧ (handle_request env freshId (some data) (Except.ok code) git posts).snd.get? 3
        = some (Effect.writeFile (repoPathOf env data freshId r ++ "/README.md")
            ("# " ++ htmlEscape (data.task.getD ("task-" ++ freshId)) ++ "\n\n" ++
             data.brief.getD "" ++ "\n\nAuto-generated for " ++
             htmlEscape (data.email.getD "student@example.com") ++ " (Round " ++
             toString r ++ ")."))
    ∧ (handle_request env freshId (some data) (Except.ok code) git posts).snd.get? 8
        = some (Effect.proc (some (repoPathOf env data freshId r))
            ["git", "config", "user.email",
             htmlEscape (data.email.getD "student@example.com")])
    ∧ repoNameOf data freshId r
        = pyNormalize (htmlEscape (data.task.getD ("task-" ++ freshId)) ++ "-" ++ toString r)
    ∧ htmlEscape s ≠ s := by
  refine ⟨?_, rfl, rfl, ?_, ?_, rfl, ?_⟩
  · simp [handle_request, hsec, hround, hgit, successPayload, repoNameOf]
  · simp [handle_request, hsec, hround, hgit, repoNameOf, repoPathOf, extractTask,
      extractEmail, gitCmds]
  · simp [handle_request, hsec, hround, hgit, repoNameOf, repoPathOf, extractTask,
      extractEmail, gitCmds]
  · rcases hs with h | h | h
    · exact htmlEscape_ne s _ h (by decide)
    · exact htmlEscape_ne s _ h (by decide)
    · exact htmlEscape_ne s _ h (by decide)

/-- C9 witness: the escaped uses at a concrete request whose email holds
an ampersand, with the changed-string conjunct at `"a&b"`. -/
theorem C9_escaped_uses_witness :
    (handle_request envEx "x" (some reqAmp) (Except.ok "code") gitOk
        (fun _ => PostOutcome.ok 200)).fst
      = HResult.resp 200 (Body.payload (successPayload envEx "x" reqAmp gitOk 1))
    ∧ (successPayload envEx "x" reqAmp gitOk 1).email
        = htmlEscape (reqAmp.email.getD "student@example.com")
    ∧ (successPayload envEx "x" reqAmp gitOk 1).task
        = htmlEscape (reqAmp.task.getD ("task-" ++ "x"))
    ∧ (handle_request envEx "x" (some reqAmp) (Except.ok "code") gitOk
        (fun _ => PostOutcome.ok 200)).snd.get? 3
        = some (Effect.writeFile (repoPathOf envEx reqAmp "x" 1 ++ "/README.md")
            ("# " ++ htmlEscape (reqAmp.task.getD ("task-" ++ "x")) ++ "\n\n" ++
             reqAmp.brief.getD "" ++ "\n\nAuto-generated for " ++
             htmlEscape (reqAmp.email.getD "student@example.com") ++ " (Round " ++
             toString (1 : Int) ++ ")."))
    ∧ (handle_request envEx "x" (some reqAmp) (Except.ok "code") gitOk
        (fun _ => PostOutcome.ok 200)).snd.get? 8
        = some (Effect.proc (some (repoPathOf envEx reqAmp "x" 1))
            ["git", "config", "user.email",
             htmlEscape (reqAmp.email.getD "student@example.com")])
    ∧ repoNameOf reqAmp "x" 1
        = pyNormalize (htmlEscape (reqAmp.task.getD ("task-" ++ "x")) ++ "-" ++ toString (1 : Int))
    ∧ htmlEscape "a&b" ≠ "a&b" :=
  C9_escaped_uses envEx "x" reqAmp "code" gitOk (fun _ => PostOutcome.ok 200) 1 "a&b"
    rfl rfl rfl (Or.inl (by decide))

end Project
